import Mathlib

/-!
Verification of dash-improve-my-llms.

The repository ships an example Dash application (`app.py`, `pages/`) together
with the test suite of the `dash_improve_my_llms` plugin.  The plugin modules
themselves (bot_detection, robots_generator, sitemap_generator, the hidden-path
registry and the documentation routes) are exercised by the tests but their
source is not part of the checkout, so those operations are modelled from the
specification (marked `Modelled from the spec:` below).  The analytics code in
`app.py` / `pages/admin.py` is embedded directly from the source.

Machine strings are Lean `String` (lists of characters); Python's float sitemap
priorities are exact decimal tenths, represented as natural numbers of tenths
(10 = "1.0", 5 = "0.5") with `priority_str` producing the decimal rendering.
-/

namespace DashLLMS

/-- `listStartsWith l p` is true when `p` is a prefix of `l` (character lists). -/
def listStartsWith : List Char → List Char → Bool
  | _, [] => true
  | [], _ :: _ => false
  | a :: s, b :: t => a == b && listStartsWith s t

/-- Substring containment on character lists, mirroring Python's `in` operator. -/
def containsSub : List Char → List Char → Bool
  | [], pat => pat.isEmpty
  | h :: t, pat => listStartsWith (h :: t) pat || containsSub t pat

/-- `strContains s pat` mirrors Python's `pat in s`. -/
def strContains (s pat : String) : Bool := containsSub s.data pat.data

/-- Number of (possibly overlapping) occurrences of `pat` in the character list. -/
def countSub : List Char → List Char → Nat
  | [], _ => 0
  | h :: t, pat => (if listStartsWith (h :: t) pat then 1 else 0) + countSub t pat

/-- Number of occurrences of `pat` inside `s`. -/
def strCount (s pat : String) : Nat := countSub s.data pat.data

/-- ASCII lowercasing, mirroring Python's `str.lower()` on the ASCII bot names
used throughout the repository. -/
def str_lower (s : String) : String := ⟨s.data.map Char.toLower⟩

/-- `s[:n]` of Python. -/
def strTake (s : String) (n : Nat) : String := ⟨s.data.take n⟩

/-! ### Basic lemmas about the string primitives -/

theorem str_data_append (s t : String) : (s ++ t).data = s.data ++ t.data := by
  cases s; cases t; rfl

theorem listStartsWith_self_append (p r : List Char) :
    listStartsWith (p ++ r) p = true := by
  induction p with
  | nil => cases r <;> rfl
  | cons a t ih => simp [listStartsWith, ih]

theorem listStartsWith_append_of {a p : List Char} (r : List Char)
    (h : listStartsWith a p = true) : listStartsWith (a ++ r) p = true := by
  induction p generalizing a with
  | nil => cases a <;> cases r <;> rfl
  | cons x p' ih =>
    cases a with
    | nil => simp [listStartsWith] at h
    | cons y a' =>
      simp only [listStartsWith, Bool.and_eq_true] at h
      simp [listStartsWith, h.1, ih h.2]

theorem containsSub_nil_pat (l : List Char) : containsSub l [] = true := by
  cases l <;> rfl

theorem containsSub_of_listStartsWith {l p : List Char}
    (h : listStartsWith l p = true) : containsSub l p = true := by
  cases l with
  | nil =>
    cases p with
    | nil => rfl
    | cons x t => simp [listStartsWith] at h
  | cons x t => simp [containsSub, h]

theorem containsSub_append_left {t p : List Char} (s : List Char)
    (h : containsSub t p = true) : containsSub (s ++ t) p = true := by
  induction s with
  | nil => simpa using h
  | cons a s' ih => simp [containsSub, ih]

theorem containsSub_append_right {s p : List Char} (t : List Char)
    (h : containsSub s p = true) : containsSub (s ++ t) p = true := by
  induction s with
  | nil =>
    cases p with
    | nil => exact containsSub_nil_pat t
    | cons x q => simp [containsSub] at h
  | cons a s' ih =>
    simp only [containsSub, Bool.or_eq_true] at h
    rcases h with h | h
    · have hs := listStartsWith_append_of t h
      simp only [List.cons_append] at hs
      simp [containsSub, hs]
    · simp [containsSub, ih h]

theorem listStartsWith_map {f : Char → Char} :
    ∀ {l p : List Char}, listStartsWith l p = true →
      listStartsWith (l.map f) (p.map f) = true := by
  intro l p h
  induction p generalizing l with
  | nil => cases l <;> rfl
  | cons x p' ih =>
    cases l with
    | nil => simp [listStartsWith] at h
    | cons y l' =>
      simp only [listStartsWith, Bool.and_eq_true] at h
      have hy : y = x := by
        have := h.1
        exact eq_of_beq this
      subst hy
      simp [listStartsWith, List.map, ih h.2]

theorem containsSub_map {f : Char → Char} :
    ∀ {l p : List Char}, containsSub l p = true →
      containsSub (l.map f) (p.map f) = true := by
  intro l p h
  induction l with
  | nil =>
    cases p with
    | nil => rfl
    | cons x q => simp [containsSub, List.isEmpty] at h
  | cons a t ih =>
    simp only [containsSub, Bool.or_eq_true] at h
    rcases h with h | h
    · exact containsSub_of_listStartsWith (listStartsWith_map h)
    · simpa [containsSub] using Or.inr (ih h)

theorem strContains_lower {ua name : String} (h : strContains ua name = true) :
    strContains (str_lower ua) (str_lower name) = true := by
  unfold strContains str_lower at *
  exact containsSub_map h

theorem str_append_cancel_left {a b c : String} (h : a ++ b = a ++ c) : b = c := by
  cases a with | mk la =>
  cases b with | mk lb =>
  cases c with | mk lc =>
  have hd : la ++ lb = la ++ lc := congrArg String.data h
  rw [List.append_cancel_left hd]

/-! ### Bot detection

Modelled from the spec: the `dash_improve_my_llms.bot_detection` module is not
in the checkout.  Per the spec, "the bot classifier checks substring membership
of a lowercased user-agent against three static name lists
(training/search/traditional) and returns the first matching category,
defaulting to `unknown`".  The curated names are the ones the repository lists
(admin page bot-type reference and the test suite). -/

/-- Modelled from the spec: curated AI-training bot names as displayed in
robots.txt (`GPTBot`, `CCBot`, `anthropic-ai`, ... per the spec and the admin
page's bot-type reference). -/
def AI_TRAINING_BOTS : List String :=
  ["GPTBot", "anthropic-ai", "Claude-Web", "CCBot", "Google-Extended",
   "FacebookBot", "ByteSpider"]

/-- Modelled from the spec: curated AI-search bot names
(`ChatGPT-User`, `ClaudeBot`, `PerplexityBot`). -/
def AI_SEARCH_BOTS : List String := ["ChatGPT-User", "ClaudeBot", "PerplexityBot"]

/-- Modelled from the spec: curated traditional search-engine bot names
(`Googlebot`, `Bingbot`, Yahoo's `Slurp`, `DuckDuckBot`). -/
def TRADITIONAL_BOTS : List String := ["Googlebot", "Bingbot", "Slurp", "DuckDuckBot"]

/-- Modelled from the spec: the lowercase matching list for training bots
(`get_all_bot_lists()["training"]` contains `"gptbot"` per the tests). -/
def bot_list_training : List String := AI_TRAINING_BOTS.map str_lower

/-- Modelled from the spec: lowercase matching list for AI search bots. -/
def bot_list_search : List String := AI_SEARCH_BOTS.map str_lower

/-- Modelled from the spec: lowercase matching list for traditional bots. -/
def bot_list_traditional : List String := TRADITIONAL_BOTS.map str_lower

/-- Modelled from the spec: `is_ai_training_bot` checks substring membership of
the lowercased user-agent against the training list. -/
def is_ai_training_bot (ua : String) : Bool :=
  bot_list_training.any (fun b => strContains (str_lower ua) b)

/-- Modelled from the spec: `is_ai_search_bot`. -/
def is_ai_search_bot (ua : String) : Bool :=
  bot_list_search.any (fun b => strContains (str_lower ua) b)

/-- Modelled from the spec: `is_traditional_bot`. -/
def is_traditional_bot (ua : String) : Bool :=
  bot_list_traditional.any (fun b => strContains (str_lower ua) b)

/-- Modelled from the spec: `is_any_bot` is true when any category matches. -/
def is_any_bot (ua : String) : Bool :=
  is_ai_training_bot ua || is_ai_search_bot ua || is_traditional_bot ua

/-- Modelled from the spec: `get_bot_type` lowercases the user-agent and scans
the three lists in order training, search, traditional, returning the first
matching category and `"unknown"` otherwise. -/
def get_bot_type (ua : String) : String :=
  let l := str_lower ua
  if bot_list_training.any (fun b => strContains l b) then "training"
  else if bot_list_search.any (fun b => strContains l b) then "search"
  else if bot_list_traditional.any (fun b => strContains l b) then "traditional"
  else "unknown"

end DashLLMS

namespace DashLLMS

/-! ### robots.txt generation

Modelled from the spec: the `dash_improve_my_llms.robots_generator` module is
not in the checkout.  Per the spec, robots.txt is "generated per RobotsConfig;
blocks listed training-bot user agents with `Disallow: /`, lists
search/traditional bots, appends custom rules, disallowed paths, crawl-delay,
and sitemap reference, plus links to the documentation routes". -/

/-- Modelled from the spec: `RobotsConfig` record with its documented flags and
defaults (`block_ai_training=True`, `allow_ai_search=True`,
`allow_traditional=True`, no crawl delay, no custom rules, no disallowed
paths). -/
structure RobotsConfig where
  block_ai_training : Bool := true
  allow_ai_search : Bool := true
  allow_traditional : Bool := true
  crawl_delay : Option Nat := none
  custom_rules : List String := []
  disallowed_paths : List String := []

/-- Lines of a per-bot section: `User-agent: <name>` followed by the action
line for each curated bot name. -/
def bot_block_lines (action : String) : List String → List String
  | [] => []
  | b :: t => ("User-agent: " ++ b) :: action :: bot_block_lines action t

/-- Modelled from the spec: the ordered lines of the generated robots.txt.
Header comments link the documentation routes; the wildcard section carries the
disallowed paths and optional crawl delay; the three curated bot groups follow
per the config flags; custom rules are appended verbatim; the sitemap
reference comes last. -/
def robots_lines (config : RobotsConfig) (sitemap_url base_url : String) :
    List String :=
  ["# robots.txt generated by dash-improve-my-llms",
   "# AI documentation: " ++ base_url ++ "/llms.txt",
   "# Architecture: " ++ base_url ++ "/architecture.txt",
   "# Page data: " ++ base_url ++ "/page.json",
   "",
   "User-agent: *",
   "Allow: /"]
  ++ config.disallowed_paths.map (fun p => "Disallow: " ++ p)
  ++ (match config.crawl_delay with
      | some d => ["Crawl-delay: " ++ toString d]
      | none => [])
  ++ [""]
  ++ (if config.block_ai_training then
        "# AI Training Bots - blocked"
          :: bot_block_lines "Disallow: /" AI_TRAINING_BOTS ++ [""]
      else [])
  ++ (if config.allow_ai_search then
        "# AI Search Bots - allowed"
          :: bot_block_lines "Allow: /" AI_SEARCH_BOTS ++ [""]
      else [])
  ++ (if config.allow_traditional then
        "# Traditional Search Bots - allowed"
          :: bot_block_lines "Allow: /" TRADITIONAL_BOTS ++ [""]
      else [])
  ++ config.custom_rules
  ++ ["", "Sitemap: " ++ sitemap_url]

/-- `"\n".join(lines)` of Python. -/
def joinLines : List String → String
  | [] => ""
  | [x] => x
  | x :: y :: t => x ++ "\n" ++ joinLines (y :: t)

/-- Modelled from the spec: `generate_robots_txt` renders the generated lines
joined by newlines. -/
def generate_robots_txt (config : RobotsConfig) (sitemap_url base_url : String) :
    String :=
  joinLines (robots_lines config sitemap_url base_url)

/-- `AdjacentIn a b l`: somewhere in `l` the element `a` is immediately
followed by `b`. -/
def AdjacentIn (a b : α) (l : List α) : Prop :=
  ∃ p q, l = p ++ a :: b :: q

theorem adjacentIn_append_left {a b : α} {l₂ : List α} (l₁ : List α)
    (h : AdjacentIn a b l₂) : AdjacentIn a b (l₁ ++ l₂) := by
  obtain ⟨p, q, rfl⟩ := h
  exact ⟨l₁ ++ p, q, by simp⟩

theorem adjacentIn_append_right {a b : α} {l₁ : List α} (l₂ : List α)
    (h : AdjacentIn a b l₁) : AdjacentIn a b (l₁ ++ l₂) := by
  obtain ⟨p, q, rfl⟩ := h
  exact ⟨p, q ++ l₂, by simp⟩

theorem adjacentIn_cons {a b : α} {l : List α} (x : α)
    (h : AdjacentIn a b l) : AdjacentIn a b (x :: l) := by
  obtain ⟨p, q, rfl⟩ := h
  exact ⟨x :: p, q, by simp⟩

theorem adjacentIn_bot_block {action : String} :
    ∀ {bots : List String}, ∀ b ∈ bots,
      AdjacentIn ("User-agent: " ++ b) action (bot_block_lines action bots) := by
  intro bots b hb
  induction bots with
  | nil => cases hb
  | cons x t ih =>
    cases hb with
    | head => exact ⟨[], bot_block_lines action t, rfl⟩
    | tail _ hb => exact adjacentIn_cons _ (adjacentIn_cons _ (ih hb))

end DashLLMS

namespace DashLLMS

/-! ### Claim C1 -/

/-- C1: any user-agent containing a recognized AI-training bot name is
classified as `"training"` (with `is_ai_training_bot` true), and with
`block_ai_training` set the generated robots.txt has, for each curated
training-bot name, the line `User-agent: <name>` immediately followed by
`Disallow: /`; `generate_robots_txt` is the newline-join of those lines. -/
theorem bot_training_classification :
    (∀ ua name, name ∈ AI_TRAINING_BOTS → strContains ua name = true →
      is_ai_training_bot ua = true ∧ get_bot_type ua = "training") ∧
    (∀ (config : RobotsConfig) (sm base : String),
      config.block_ai_training = true →
      ∀ name ∈ AI_TRAINING_BOTS,
        AdjacentIn ("User-agent: " ++ name) "Disallow: /"
          (robots_lines config sm base)) ∧
    (∀ (config : RobotsConfig) (sm base : String),
      generate_robots_txt config sm base = joinLines (robots_lines config sm base)) := by
  refine ⟨?_, ?_, fun _ _ _ => rfl⟩
  · intro ua name hmem hsub
    have hlow := strContains_lower hsub
    have hmem' : str_lower name ∈ bot_list_training :=
      List.mem_map_of_mem str_lower hmem
    have hany : bot_list_training.any (fun b => strContains (str_lower ua) b) = true :=
      List.any_eq_true.mpr ⟨str_lower name, hmem', hlow⟩
    refine ⟨hany, ?_⟩
    simp only [get_bot_type, hany, if_true]
  · intro config sm base hblock name hname
    have h := @adjacentIn_bot_block "Disallow: /" AI_TRAINING_BOTS name hname
    unfold robots_lines
    apply adjacentIn_append_right
    apply adjacentIn_append_right
    apply adjacentIn_append_right
    apply adjacentIn_append_right
    apply adjacentIn_append_left
    rw [hblock]
    simpa using adjacentIn_append_right [""] (adjacentIn_cons _ h)

/-- C1 witness: concrete instantiation at `"GPTBot"` and the default config. -/
theorem bot_training_classification_witness :
    is_ai_training_bot "Mozilla/5.0 (compatible; GPTBot/1.0)" = true ∧
    get_bot_type "Mozilla/5.0 (compatible; GPTBot/1.0)" = "training" ∧
    AdjacentIn "User-agent: GPTBot" "Disallow: /"
      (robots_lines {} "https://example.com/sitemap.xml" "https://example.com") := by
  have h₁ := bot_training_classification.1 "Mozilla/5.0 (compatible; GPTBot/1.0)"
    "GPTBot" (by decide) (by decide)
  have h₂ := bot_training_classification.2.1 {} "https://example.com/sitemap.xml"
    "https://example.com" (by decide) "GPTBot" (by decide)
  exact ⟨h₁.1, h₁.2, h₂⟩

/-! ### Claim C5 -/

/-- C5: `get_bot_type` scans the lowercased user-agent against the three lists
in order training, search, traditional, returning the first matching category
and `"unknown"` when none matches; classification is case-insensitive (it only
depends on the lowercased user-agent), and the empty user-agent is `"unknown"`
with `is_any_bot` false. -/
theorem bot_type_linear_scan :
    (∀ ua₁ ua₂, str_lower ua₁ = str_lower ua₂ → get_bot_type ua₁ = get_bot_type ua₂) ∧
    get_bot_type "" = "unknown" ∧
    is_any_bot "" = false ∧
    (∀ ua, get_bot_type ua = "unknown" ↔ is_any_bot ua = false) ∧
    (∀ ua, is_ai_training_bot ua = true → get_bot_type ua = "training") ∧
    (∀ ua, is_ai_training_bot ua = false → is_ai_search_bot ua = true →
      get_bot_type ua = "search") ∧
    (∀ ua, is_ai_training_bot ua = false → is_ai_search_bot ua = false →
      is_traditional_bot ua = true → get_bot_type ua = "traditional") := by
  refine ⟨?_, by decide, by decide, ?_, ?_, ?_, ?_⟩
  · intro ua₁ ua₂ h
    simp only [get_bot_type, h]
  · intro ua
    unfold get_bot_type is_any_bot is_ai_training_bot is_ai_search_bot is_traditional_bot
    cases h₁ : bot_list_training.any (fun b => strContains (str_lower ua) b) <;>
      cases h₂ : bot_list_search.any (fun b => strContains (str_lower ua) b) <;>
        cases h₃ : bot_list_traditional.any (fun b => strContains (str_lower ua) b) <;>
          simp [h₁, h₂, h₃]
  · intro ua h
    simp only [is_ai_training_bot] at h
    simp only [get_bot_type, h, if_true]
  · intro ua h₁ h₂
    simp only [is_ai_training_bot] at h₁
    simp only [is_ai_search_bot] at h₂
    simp only [get_bot_type, h₁, h₂]
    simp
  · intro ua h₁ h₂ h₃
    simp only [is_ai_training_bot] at h₁
    simp only [is_ai_search_bot] at h₂
    simp only [is_traditional_bot] at h₃
    simp only [get_bot_type, h₁, h₂, h₃]
    simp

/-- C5 witness: concrete capitalization variants and a first-list match. -/
theorem bot_type_linear_scan_witness :
    get_bot_type "MoZiLLa/5.0 (CoMpAtIbLe; GpTbOt/1.0)" =
      get_bot_type "mozilla/5.0 (compatible; gptbot/1.0)" ∧
    get_bot_type "CCBot/2.0" = "training" := by
  refine ⟨bot_type_linear_scan.1 _ _ (by decide), ?_⟩
  exact bot_type_linear_scan.2.2.2.2.1 "CCBot/2.0" (by decide)

end DashLLMS

namespace DashLLMS

/-! ### Claim C4 -/

/-- Whether a robots.txt line begins with `Sitemap:`. -/
def lineStartsSitemap (l : String) : Bool :=
  listStartsWith l.data "Sitemap:".data

theorem lsw_false_head {a b : Char} {s t : List Char} (h : (a == b) = false) :
    listStartsWith (a :: s) (b :: t) = false := by
  simp [listStartsWith, h]

theorem lineStartsSitemap_disallow (p : String) :
    lineStartsSitemap ("Disallow: " ++ p) = false := by
  cases p with | mk lp => exact lsw_false_head (by decide)

theorem lineStartsSitemap_useragent (b : String) :
    lineStartsSitemap ("User-agent: " ++ b) = false := by
  cases b with | mk lb => exact lsw_false_head (by decide)

theorem lineStartsSitemap_crawl (s : String) :
    lineStartsSitemap ("Crawl-delay: " ++ s) = false := by
  cases s with | mk ls => exact lsw_false_head (by decide)

theorem lineStartsSitemap_comment (pre : String) (hpre : pre.data.head? = some '#')
    (suf : String) : lineStartsSitemap (pre ++ suf) = false := by
  cases pre with | mk lp =>
  cases suf with | mk ls =>
  cases lp with
  | nil => simp at hpre
  | cons c r =>
    have hc : c = '#' := by simpa using hpre
    subst hc
    exact lsw_false_head (by decide)

theorem lineStartsSitemap_sitemap (sm : String) :
    lineStartsSitemap ("Sitemap: " ++ sm) = true := by
  cases sm with | mk ls =>
  have h : ("Sitemap: " ++ String.mk ls).data =
      "Sitemap:".data ++ (' ' :: ls) := rfl
  unfold lineStartsSitemap
  rw [h]
  exact listStartsWith_self_append _ _

theorem filter_sitemap_bot_block {action : String}
    (h : lineStartsSitemap action = false) (bots : List String) :
    (bot_block_lines action bots).filter (fun l => lineStartsSitemap l) = [] := by
  induction bots with
  | nil => rfl
  | cons b t ih =>
    simp [bot_block_lines, List.filter, lineStartsSitemap_useragent b, h, ih]

set_option maxRecDepth 8192 in
/-- C4 counterexample: a `RobotsConfig` whose custom rules themselves contain a
`Sitemap:` line makes the generated robots.txt carry two lines that begin with
`Sitemap:` (and two occurrences of `Sitemap:` in the rendered string),
refuting the claim's universal quantification over configs. -/
theorem robots_sitemap_line_unique_cex :
    (((robots_lines
        { custom_rules := ["Sitemap: https://evil.example/other.xml"] }
        "https://example.com/sitemap.xml" "https://example.com").filter
          (fun l => lineStartsSitemap l)).length = 2) ∧
    strCount (generate_robots_txt
        { custom_rules := ["Sitemap: https://evil.example/other.xml"] }
        "https://example.com/sitemap.xml" "https://example.com") "Sitemap:" = 2 := by
  constructor <;> decide

/-- C4 (amended): for every `RobotsConfig` whose custom rules contain no line
beginning with `Sitemap:`, the generated robots.txt lines contain exactly one
line beginning with `Sitemap:`, and it is `Sitemap: <sitemap_url>`;
`generate_robots_txt` is the newline-join of those lines. -/
theorem robots_sitemap_line_unique_amended
    (config : RobotsConfig) (sm base : String)
    (hcustom : config.custom_rules.all (fun l => !(lineStartsSitemap l)) = true) :
    (robots_lines config sm base).filter (fun l => lineStartsSitemap l) =
      ["Sitemap: " ++ sm] ∧
    generate_robots_txt config sm base = joinLines (robots_lines config sm base) := by
  refine ⟨?_, rfl⟩
  unfold robots_lines
  simp only [List.filter_append]
  have hdoc1 : lineStartsSitemap ("# AI documentation: " ++ base ++ "/llms.txt") = false := by
    have := lineStartsSitemap_comment "# AI documentation: " (by decide)
      (base ++ "/llms.txt")
    simpa [String.append_assoc] using this
  have hdoc2 : lineStartsSitemap ("# Architecture: " ++ base ++ "/architecture.txt") = false := by
    have := lineStartsSitemap_comment "# Architecture: " (by decide)
      (base ++ "/architecture.txt")
    simpa [String.append_assoc] using this
  have hdoc3 : lineStartsSitemap ("# Page data: " ++ base ++ "/page.json") = false := by
    have := lineStartsSitemap_comment "# Page data: " (by decide) (base ++ "/page.json")
    simpa [String.append_assoc] using this
  have e1 : lineStartsSitemap "# robots.txt generated by dash-improve-my-llms" = false := by
    decide
  have e2 : lineStartsSitemap "" = false := by decide
  have e3 : lineStartsSitemap "User-agent: *" = false := by decide
  have e4 : lineStartsSitemap "Allow: /" = false := by decide
  have h₁ : (["# robots.txt generated by dash-improve-my-llms",
      "# AI documentation: " ++ base ++ "/llms.txt",
      "# Architecture: " ++ base ++ "/architecture.txt",
      "# Page data: " ++ base ++ "/page.json",
      "", "User-agent: *",
      "Allow: /"].filter (fun l => lineStartsSitemap l)) = [] := by
    simp only [List.filter_cons, List.filter_nil, hdoc1, hdoc2, hdoc3, e1, e2, e3, e4,
      Bool.false_eq_true, if_false]
  have h₂ : ((config.disallowed_paths.map (fun p => "Disallow: " ++ p)).filter
      (fun l => lineStartsSitemap l)) = [] := by
    rw [List.filter_eq_nil_iff]
    intro a ha
    obtain ⟨p, _, rfl⟩ := List.mem_map.mp ha
    simp [lineStartsSitemap_disallow]
  have h₃ : (((match config.crawl_delay with
      | some d => ["Crawl-delay: " ++ toString d]
      | none => []) : List String).filter (fun l => lineStartsSitemap l)) = [] := by
    cases config.crawl_delay with
    | none => rfl
    | some d => simp [List.filter, lineStartsSitemap_crawl]
  have h₄ : ((if config.block_ai_training then
      "# AI Training Bots - blocked"
        :: bot_block_lines "Disallow: /" AI_TRAINING_BOTS ++ [""]
      else []).filter (fun l => lineStartsSitemap l)) = [] := by
    cases config.block_ai_training with
    | false => rfl
    | true => decide
  have h₅ : ((if config.allow_ai_search then
      "# AI Search Bots - allowed"
        :: bot_block_lines "Allow: /" AI_SEARCH_BOTS ++ [""]
      else []).filter (fun l => lineStartsSitemap l)) = [] := by
    cases config.allow_ai_search with
    | false => rfl
    | true => decide
  have h₆ : (config.custom_rules.filter (fun l => lineStartsSitemap l)) = [] := by
    rw [List.filter_eq_nil_iff]
    intro a ha
    have := List.all_eq_true.mp hcustom a ha
    simp at this
    simp [this]
  have h₇ : ((if config.allow_traditional then
      "# Traditional Search Bots - allowed"
        :: bot_block_lines "Allow: /" TRADITIONAL_BOTS ++ [""]
      else []).filter (fun l => lineStartsSitemap l)) = [] := by
    cases config.allow_traditional with
    | false => rfl
    | true => decide
  have h₈ : ((["", "Sitemap: " ++ sm] : List String).filter
      (fun l => lineStartsSitemap l)) = ["Sitemap: " ++ sm] := by
    simp only [List.filter_cons, List.filter_nil, e2, lineStartsSitemap_sitemap sm,
      Bool.false_eq_true, if_false, if_true]
  rw [h₁, h₂, h₃, h₄, h₅, h₆, h₇, h₈]
  rfl

/-- C4 witness: the default config has no custom rules, so the amended theorem
applies and yields the unique sitemap line. -/
theorem robots_sitemap_line_unique_witness :
    (({} : RobotsConfig).custom_rules.all (fun l => !(lineStartsSitemap l)) = true) ∧
    (robots_lines {} "https://myapp.com/sitemap.xml" "https://myapp.com").filter
      (fun l => lineStartsSitemap l) = ["Sitemap: " ++ "https://myapp.com/sitemap.xml"] :=
  ⟨by decide,
   (robots_sitemap_line_unique_amended {} "https://myapp.com/sitemap.xml"
     "https://myapp.com" (by decide)).1⟩

end DashLLMS

namespace DashLLMS

/-! ### Sitemap generation

Modelled from the spec: the `dash_improve_my_llms.sitemap_generator` module is
not in the checkout.  Per the spec, sitemap output has "one `<url>` per visible
(non-hidden) page, sorted descending by inferred priority; each entry has loc,
lastmod (auto), optional changefreq/priority", and "priority/frequency
inference is a sequence of substring checks against the path, returning the
first match's constant, falling back to fixed defaults" ("weekly"/0.5, with
the homepage at 1.0).  Priorities are decimal tenths as naturals. -/

/-- Modelled from the spec: path keywords inferring priority 0.9. -/
def PRIORITY_HIGH_KEYS : List String := ["dashboard", "main", "overview"]

/-- Modelled from the spec: path keywords inferring priority 0.8. -/
def PRIORITY_MED_KEYS : List String := ["report", "analytics", "data"]

/-- Modelled from the spec: path keywords inferring priority 0.7. -/
def PRIORITY_DOC_KEYS : List String := ["docs", "help", "api", "about"]

/-- Modelled from the spec: `infer_page_priority` returns 1.0 for the homepage
and otherwise the first matching keyword group's constant, defaulting to 0.5;
the metadata dictionary is not consulted. -/
def infer_page_priority (path : String) (_meta : List (String × String)) : Nat :=
  if path = "/" then 10
  else if PRIORITY_HIGH_KEYS.any (fun k => strContains path k) then 9
  else if PRIORITY_MED_KEYS.any (fun k => strContains path k) then 8
  else if PRIORITY_DOC_KEYS.any (fun k => strContains path k) then 7
  else 5

/-- Modelled from the spec: path keywords inferring `"daily"`. -/
def FREQ_DAILY_KEYS : List String := ["dashboard", "live", "real-time"]

/-- Modelled from the spec: path keywords inferring `"weekly"`. -/
def FREQ_WEEKLY_KEYS : List String := ["report", "analytics"]

/-- Modelled from the spec: path keywords inferring `"monthly"`. -/
def FREQ_MONTHLY_KEYS : List String := ["docs", "help", "api"]

/-- Modelled from the spec: path keywords inferring `"yearly"`. -/
def FREQ_YEARLY_KEYS : List String := ["about", "contact", "terms"]

/-- Modelled from the spec: `infer_change_frequency` returns the first matching
keyword group's period, defaulting to `"weekly"`. -/
def infer_change_frequency (path : String) (_meta : List (String × String)) :
    String :=
  if FREQ_DAILY_KEYS.any (fun k => strContains path k) then "daily"
  else if FREQ_WEEKLY_KEYS.any (fun k => strContains path k) then "weekly"
  else if FREQ_MONTHLY_KEYS.any (fun k => strContains path k) then "monthly"
  else if FREQ_YEARLY_KEYS.any (fun k => strContains path k) then "yearly"
  else "weekly"

/-- Renders a priority in tenths as Python renders the float
(`10 ↦ "1.0"`, `5 ↦ "0.5"`). -/
def priority_str (p : Nat) : String :=
  toString (p / 10) ++ "." ++ toString (p % 10)

/-- Modelled from the spec: `SitemapEntry` with the constructor defaults the
tests pin down (changefreq `"weekly"`, priority 0.5; lastmod auto-filled at
generation time when absent). -/
structure SitemapEntry where
  loc : String
  lastmod : Option String := none
  changefreq : Option String := some "weekly"
  priority : Option Nat := some 5

/-- Modelled from the spec: `SitemapEntry.to_xml` renders the `<url>` block;
a missing lastmod becomes the generation date `today`, and explicit `None`
changefreq/priority are omitted. -/
def SitemapEntry.to_xml (today : String) (e : SitemapEntry) : String :=
  "  <url>\n    <loc>" ++ e.loc ++ "</loc>\n"
    ++ ("    <lastmod>" ++ e.lastmod.getD today ++ "</lastmod>\n")
    ++ (match e.changefreq with
        | some c => "    <changefreq>" ++ c ++ "</changefreq>\n"
        | none => "")
    ++ (match e.priority with
        | some p => "    <priority>" ++ priority_str p ++ "</priority>\n"
        | none => "")
    ++ "  </url>"

/-- A page record as passed to `generate_sitemap_xml` (`path`, `name`, optional
description). -/
structure PageInfo where
  path : String
  name : String
  description : Option String := none

/-- Modelled from the spec: the entries derived from the visible (non-hidden)
pages, with inferred changefreq/priority, followed by any custom entries. -/
def sitemap_entries (pages : List PageInfo) (base_url : String)
    (hidden_paths : List String) (custom_entries : List SitemapEntry) :
    List SitemapEntry :=
  (pages.filter (fun pg => decide (pg.path ∉ hidden_paths))).map (fun pg =>
    { loc := base_url ++ pg.path,
      lastmod := none,
      changefreq := some (infer_change_frequency pg.path []),
      priority := some (infer_page_priority pg.path []) })
  ++ custom_entries

/-- Sort key: the entry's priority in tenths (0.5 when absent). -/
def sitemap_key (e : SitemapEntry) : Nat := e.priority.getD 5

/-- Descending-priority order used to sort sitemap entries. -/
def sitemap_le (a b : SitemapEntry) : Prop := sitemap_key b ≤ sitemap_key a

instance : DecidableRel sitemap_le :=
  fun a b => Nat.decLe (sitemap_key b) (sitemap_key a)

instance : IsTotal SitemapEntry sitemap_le :=
  ⟨fun a b => Nat.le_total (sitemap_key b) (sitemap_key a)⟩

instance : IsTrans SitemapEntry sitemap_le :=
  ⟨fun _ _ _ h₁ h₂ => Nat.le_trans h₂ h₁⟩

/-- Modelled from the spec: the entries in emission order, sorted descending by
inferred priority (stable insertion sort). -/
def sitemap_sorted (pages : List PageInfo) (base_url : String)
    (hidden_paths : List String) (custom_entries : List SitemapEntry) :
    List SitemapEntry :=
  List.insertionSort sitemap_le
    (sitemap_entries pages base_url hidden_paths custom_entries)

/-- Modelled from the spec: `generate_sitemap_xml` renders the XML declaration,
the urlset open tag with the sitemap 0.9 namespace, one `<url>` block per
sorted entry, and the closing tag. -/
def generate_sitemap_xml (pages : List PageInfo) (base_url : String)
    (hidden_paths : List String) (custom_entries : List SitemapEntry)
    (today : String) : String :=
  "<?xml version=\"1.0\" encoding=\"UTF-8\"?>\n<urlset xmlns=\"http://www.sitemaps.org/schemas/sitemap/0.9\">\n"
    ++ joinLines ((sitemap_sorted pages base_url hidden_paths custom_entries).map
        (SitemapEntry.to_xml today))
    ++ "\n</urlset>"

/-! ### Hidden pages and documentation routes -/

/-- Modelled from the spec: `mark_hidden` adds a path to the hidden-path
registry (a set; modelled with explicit state passing). -/
def mark_hidden (hidden : List String) (path : String) : List String :=
  path :: hidden

/-- Modelled from the spec: `is_hidden` is membership in the registry. -/
def is_hidden (hidden : List String) (path : String) : Bool :=
  decide (path ∈ hidden)

/-- Modelled from the spec: the page-specific documentation routes
(`<path>/llms.txt` and `<path>/page.json`) return HTTP 404 for a hidden page
and 200 otherwise. -/
def page_doc_route_status (hidden : List String) (path : String) : Nat :=
  if is_hidden hidden path then 404 else 200

end DashLLMS

namespace DashLLMS

/-! ### Claim C2 -/

/-- C2: the `<url>` entries emitted by `generate_sitemap_xml` appear in
descending order of inferred priority (every entry's priority is at least the
next one's), the homepage path `"/"` gets priority 1.0 regardless of metadata,
and `generate_sitemap_xml` renders exactly the sorted entry list. -/
theorem sitemap_priority_order :
    (∀ pages base hidden customs,
      (sitemap_sorted pages base hidden customs).Pairwise sitemap_le) ∧
    (∀ m, infer_page_priority "/" m = 10 ∧ priority_str 10 = "1.0") ∧
    (∀ pages base hidden customs today,
      generate_sitemap_xml pages base hidden customs today =
        "<?xml version=\"1.0\" encoding=\"UTF-8\"?>\n<urlset xmlns=\"http://www.sitemaps.org/schemas/sitemap/0.9\">\n"
          ++ joinLines ((sitemap_sorted pages base hidden customs).map
              (SitemapEntry.to_xml today))
          ++ "\n</urlset>") := by
  refine ⟨?_, fun m => ⟨by simp [infer_page_priority], by decide⟩,
    fun _ _ _ _ _ => rfl⟩
  intro pages base hidden customs
  exact List.sorted_insertionSort sitemap_le
    (sitemap_entries pages base hidden customs)

/-! ### Claim C6 -/

/-- C6: on an empty page list (and no custom entries) the generated sitemap is
a well-formed document: it contains the XML declaration, the urlset open tag
with the sitemap 0.9 namespace, the closing tag, and zero `<url>` elements. -/
theorem sitemap_empty_wellformed (base : String) (hidden : List String)
    (today : String) :
    strContains (generate_sitemap_xml [] base hidden [] today)
      "<?xml version=\"1.0\" encoding=\"UTF-8\"?>" = true ∧
    strContains (generate_sitemap_xml [] base hidden [] today)
      "<urlset xmlns=\"http://www.sitemaps.org/schemas/sitemap/0.9\">" = true ∧
    strContains (generate_sitemap_xml [] base hidden [] today) "</urlset>" = true ∧
    strCount (generate_sitemap_xml [] base hidden [] today) "<url>" = 0 := by
  have hout : generate_sitemap_xml [] base hidden [] today =
      "<?xml version=\"1.0\" encoding=\"UTF-8\"?>\n<urlset xmlns=\"http://www.sitemaps.org/schemas/sitemap/0.9\">\n\n</urlset>" := rfl
  rw [hout]
  refine ⟨by decide, by decide, by decide, by decide⟩

/-! ### Claim C3 -/

/-- C3: a path passed to `mark_hidden` satisfies `is_hidden`; a path listed in
`hidden_paths` contributes no `<url>` entry (no emitted entry has its URL as
loc); and the page documentation routes answer 404 for hidden paths. -/
theorem hidden_page_exclusion :
    (∀ (hidden : List String) (p : String),
      is_hidden (mark_hidden hidden p) p = true) ∧
    (∀ pages base (hidden : List String) (p : String), p ∈ hidden →
      ∀ e ∈ sitemap_sorted pages base hidden [], e.loc ≠ base ++ p) ∧
    (∀ (hidden : List String) (p : String), is_hidden hidden p = true →
      page_doc_route_status hidden p = 404) := by
  refine ⟨?_, ?_, ?_⟩
  · intro hidden p
    simp [is_hidden, mark_hidden]
  · intro pages base hidden p hp e he heq
    rw [sitemap_sorted, List.mem_insertionSort] at he
    rw [sitemap_entries, List.append_nil, List.mem_map] at he
    obtain ⟨pg, hpg, rfl⟩ := he
    have hmem := (List.mem_filter.mp hpg).2
    have hnot : pg.path ∉ hidden := of_decide_eq_true hmem
    have : pg.path = p := str_append_cancel_left heq
    exact hnot (this ▸ hp)
  · intro hidden p h
    simp [page_doc_route_status, h]

/-- C3 witness: `/admin` marked hidden is hidden, is absent from a concrete
sitemap over pages including it, and its documentation routes answer 404. -/
theorem hidden_page_exclusion_witness :
    is_hidden (mark_hidden [] "/admin") "/admin" = true ∧
    (∀ e ∈ sitemap_sorted
        [{ path := "/", name := "Home" }, { path := "/dashboard", name := "Dashboard" },
         { path := "/admin", name := "Admin" }]
        "https://example.com" ["/admin"] [],
      e.loc ≠ "https://example.com" ++ "/admin") ∧
    page_doc_route_status ["/admin"] "/admin" = 404 := by
  refine ⟨hidden_page_exclusion.1 [] "/admin", ?_, ?_⟩
  · exact hidden_page_exclusion.2.1
      [{ path := "/", name := "Home" }, { path := "/dashboard", name := "Dashboard" },
       { path := "/admin", name := "Admin" }]
      "https://example.com" ["/admin"] "/admin" (by decide)
  · exact hidden_page_exclusion.2.2 ["/admin"] "/admin" (by decide)

end DashLLMS

namespace DashLLMS

/-! ### Claim C7 -/

theorem containsSub_chunk_var (T spaces tail pre post : List Char)
    (hpre : pre = spaces ++ "<lastmod>".data)
    (hpost : post = "</lastmod>".data ++ tail) :
    containsSub ((pre ++ T) ++ post)
      (("<lastmod>".data ++ T) ++ "</lastmod>".data) = true := by
  subst hpre hpost
  have h1 : listStartsWith
      ((("<lastmod>".data ++ T) ++ "</lastmod>".data) ++ tail)
      (("<lastmod>".data ++ T) ++ "</lastmod>".data) := listStartsWith_self_append _ _
  have h2 := containsSub_of_listStartsWith h1
  have hassoc : ((spaces ++ "<lastmod>".data) ++ T) ++ ("</lastmod>".data ++ tail) =
      spaces ++ ((("<lastmod>".data ++ T) ++ "</lastmod>".data) ++ tail) := by
    simp [List.append_assoc]
  rw [hassoc]
  exact containsSub_append_left spaces h2

/-- C7: a path matching none of the substring rules gets priority 0.5 and
change frequency `"weekly"`; a `SitemapEntry` built with only a `loc`
serializes with `<changefreq>weekly</changefreq>`, `<priority>0.5</priority>`
and an automatically generated `<lastmod>` element carrying the generation
date. -/
theorem sitemap_defaults :
    (∀ path m, path ≠ "/" →
      PRIORITY_HIGH_KEYS.any (fun k => strContains path k) = false →
      PRIORITY_MED_KEYS.any (fun k => strContains path k) = false →
      PRIORITY_DOC_KEYS.any (fun k => strContains path k) = false →
      infer_page_priority path m = 5 ∧ priority_str 5 = "0.5") ∧
    (∀ path m,
      FREQ_DAILY_KEYS.any (fun k => strContains path k) = false →
      FREQ_WEEKLY_KEYS.any (fun k => strContains path k) = false →
      FREQ_MONTHLY_KEYS.any (fun k => strContains path k) = false →
      FREQ_YEARLY_KEYS.any (fun k => strContains path k) = false →
      infer_change_frequency path m = "weekly") ∧
    (∀ loc today,
      strContains (SitemapEntry.to_xml today { loc := loc })
        "<changefreq>weekly</changefreq>" = true ∧
      strContains (SitemapEntry.to_xml today { loc := loc })
        "<priority>0.5</priority>" = true ∧
      strContains (SitemapEntry.to_xml today { loc := loc })
        ("<lastmod>" ++ today ++ "</lastmod>") = true) := by
  refine ⟨?_, ?_, ?_⟩
  · intro path m hroot h₁ h₂ h₃
    refine ⟨?_, by decide⟩
    simp [infer_page_priority, hroot, h₁, h₂, h₃]
  · intro path m h₁ h₂ h₃ h₄
    simp [infer_change_frequency, h₁, h₂, h₃, h₄]
  · intro loc today
    have hx : SitemapEntry.to_xml today { loc := loc } =
        "  <url>\n    <loc>" ++ loc ++ "</loc>\n"
          ++ ("    <lastmod>" ++ today ++ "</lastmod>\n")
          ++ "    <changefreq>weekly</changefreq>\n"
          ++ "    <priority>0.5</priority>\n"
          ++ "  </url>" := rfl
    rw [hx]
    refine ⟨?_, ?_, ?_⟩
    · unfold strContains
      simp only [str_data_append]
      apply containsSub_append_right
      apply containsSub_append_right
      apply containsSub_append_left
      decide
    · unfold strContains
      simp only [str_data_append]
      apply containsSub_append_right
      apply containsSub_append_left
      decide
    · unfold strContains
      simp only [str_data_append]
      apply containsSub_append_right
      apply containsSub_append_right
      apply containsSub_append_right
      apply containsSub_append_left
      exact containsSub_chunk_var today.data "    ".data ['\n'] _ _
        (by decide) (by decide)

end DashLLMS

namespace DashLLMS

/-- C7 witness: concrete paths matching no substring rule. -/
theorem sitemap_defaults_witness :
    infer_page_priority "/random-page" [] = 5 ∧
    infer_change_frequency "/random" [] = "weekly" ∧
    strContains (SitemapEntry.to_xml "2024-01-01" { loc := "https://example.com/minimal" })
      ("<lastmod>" ++ "2024-01-01" ++ "</lastmod>") = true :=
  ⟨(sitemap_defaults.1 "/random-page" [] (by decide) (by decide) (by decide)
      (by decide)).1,
   sitemap_defaults.2.1 "/random" [] (by decide) (by decide) (by decide) (by decide),
   (sitemap_defaults.2.2 "https://example.com/minimal" "2024-01-01").2.2⟩

/-! ### Visitor analytics (embedded from `src/app.py` and `src/pages/admin.py`)

`load_analytics` (app.py lines 80-122, duplicated verbatim in admin.py lines
49-91) reads the JSON file when it exists, drops visits whose path contains an
asset/internal substring, and recomputes the stats dictionary from the
remaining visits.  `track_visit` (app.py lines 145-181) skips asset paths,
classifies the visitor, appends a visit record, bumps the stats, trims the
visit list to the last 1000, and saves; the whole body is wrapped in a
catch-all `except` that logs and returns.  JSON dictionaries may lack keys, so
optional fields are `Option`; the stats dictionary is a total function
`String → Nat` (absent keys read as 0 via `stats.get(k, 0)`). -/

/-- A visit record as stored in `visitor_analytics.json`; fields read with
`.get` defaults in the source are optional here. -/
structure Visit where
  timestamp : String
  path : Option String
  device_type : Option String
  bot_type : Option String
  user_agent : String
deriving DecidableEq

/-- In-memory analytics dictionary: the visits list and the stats counters. -/
structure Analytics where
  visits : List Visit
  stats : String → Nat

/-- The path substrings filtered out of tracking and of loaded data
(app.py lines 91 and 152). -/
def ASSET_SUBSTRINGS : List String :=
  [".css", ".js", ".png", ".jpg", ".ico", "_dash", "_reload-hash"]

/-- `visit.get("path", "")` of the source. -/
def Visit.pathD (v : Visit) : String := v.path.getD ""

/-- `visit.get("device_type", "desktop")` of the source. -/
def Visit.deviceD (v : Visit) : String := v.device_type.getD "desktop"

/-- Whether a path is filtered out (`any(ext in path for ext in [...])`). -/
def path_filtered (path : String) : Bool :=
  ASSET_SUBSTRINGS.any (fun ext => strContains path ext)

/-- `stats[k] = stats.get(k, 0) + 1` of the source. -/
def bump (st : String → Nat) (k : String) : String → Nat :=
  fun x => if x = k then st k + 1 else st x

/-- The all-zero stats dictionary (`{"desktop": 0, ..., "total": 0}`). -/
def empty_stats : String → Nat := fun _ => 0

/-- The stats-recomputation loop of `load_analytics`: for each clean visit,
`stats[device_type] += 1` (defaulting the device to `"desktop"`) and
`stats["total"] += 1`. -/
def recompute_stats (vs : List Visit) : String → Nat :=
  vs.foldl (fun st v => bump (bump st v.deviceD) "total") empty_stats

/-- `load_analytics` from app.py lines 80-122 (identical in admin.py lines
49-91): `none` models a missing file; otherwise the stored visits are filtered
by `ASSET_SUBSTRINGS` and the stats recomputed from the clean visits. -/
def load_analytics (file : Option (List Visit)) : Analytics :=
  match file with
  | none => { visits := [], stats := empty_stats }
  | some stored =>
    let clean := stored.filter (fun v => !(path_filtered v.pathD))
    { visits := clean, stats := recompute_stats clean }

/-- `detect_device_type` from app.py lines 131-142. -/
def detect_device_type (user_agent : String) : String :=
  let ua_lower := str_lower user_agent
  if is_any_bot user_agent then "bot"
  else if ["mobile", "android", "iphone", "ipod"].any
      (fun m => strContains ua_lower m) then "mobile"
  else if ["tablet", "ipad"].any (fun t => strContains ua_lower t) then "tablet"
  else "desktop"

/-- The visit record `track_visit` builds (app.py lines 162-168). -/
def recorded_visit (user_agent path timestamp : String) : Visit :=
  { timestamp := timestamp,
    path := some path,
    device_type := some (detect_device_type user_agent),
    bot_type := if detect_device_type user_agent = "bot"
      then some (get_bot_type user_agent) else none,
    user_agent := strTake user_agent 200 }

/-- The trim step of `track_visit` (app.py lines 174-176): keep only the last
1000 visits when the list has grown beyond 1000. -/
def trim_visits (l : List Visit) : List Visit :=
  if l.length > 1000 then l.drop (l.length - 1000) else l

/-- `track_visit` from app.py lines 145-181, minus the I/O and the `try`
wrapper (modelled separately): `none` when the path is filtered and nothing is
recorded, otherwise the analytics dictionary passed to `save_analytics`:
visits appended then trimmed to the last 1000, stats bumped. -/
def track_visit (file : Option (List Visit)) (user_agent path timestamp : String) :
    Option Analytics :=
  if path_filtered path then none
  else
    let analytics := load_analytics file
    let visit := recorded_visit user_agent path timestamp
    let appended := analytics.visits ++ [visit]
    let stats' := bump (bump analytics.stats (detect_device_type user_agent)) "total"
    some { visits := trim_visits appended, stats := stats' }

/-- Outcome of a Python call as seen by the caller: a normal return
(optionally after printing an error message) or a propagated exception. -/
inductive PyOutcome where
  | returns (logged : Option String)
  | raises (e : String)
deriving DecidableEq

/-- The body of `track_visit` inside the `try` block, with the fallible
operations (reading and writing `visitor_analytics.json`) as `Except`-valued
environment inputs: any failure propagates out of the body. -/
def track_visit_attempt (load_result : Except String (Option (List Visit)))
    (save_result : Except String Unit) (ua path ts : String) :
    Except String Unit :=
  if path_filtered path then Except.ok ()
  else do
    let file ← load_result
    match track_visit file ua path ts with
    | none => Except.ok ()
    | some _ => save_result

/-- `track_visit` with its catch-all `except Exception` (app.py lines 180-181):
an error e from the body is logged as the message Error tracking visit: e, and
the function returns normally. -/
def track_visit_guarded (load_result : Except String (Option (List Visit)))
    (save_result : Except String Unit) (ua path ts : String) : PyOutcome :=
  match track_visit_attempt load_result save_result ua path ts with
  | Except.ok _ => PyOutcome.returns none
  | Except.error e => PyOutcome.returns (some ("Error tracking visit: " ++ e))

/-- The `before_request` hook (app.py lines 184-188) just calls the guarded
`track_visit`. -/
def before_request (load_result : Except String (Option (List Visit)))
    (save_result : Except String Unit) (ua path ts : String) : PyOutcome :=
  track_visit_guarded load_result save_result ua path ts

end DashLLMS

namespace DashLLMS

/-! ### Claim C8 -/

theorem trim_visits_length_le (l : List Visit) : (trim_visits l).length ≤ 1000 := by
  unfold trim_visits
  by_cases h : l.length > 1000
  · simp only [h, if_true, List.length_drop]
    omega
  · simp only [h, if_false]
    omega

theorem trim_visits_eq_of_le (l : List Visit) (h : l.length ≤ 1000) :
    trim_visits l = l := by
  unfold trim_visits
  rw [if_neg (by omega)]

theorem trim_visits_eq_of_gt (l : List Visit) (h : 1000 < l.length) :
    trim_visits l = l.drop (l.length - 1000) ∧ (trim_visits l).length = 1000 := by
  unfold trim_visits
  rw [if_pos (by omega)]
  refine ⟨rfl, ?_⟩
  simp only [List.length_drop]
  omega

/-- C8: every completed `track_visit` call that records a visit persists a
visits list of length at most 1000; when the appended list exceeds 1000 the
retained records are exactly the last (most recent) 1000, oldest dropped. -/
theorem visits_trim_bound (file : Option (List Visit)) (ua path ts : String)
    (hpath : path_filtered path = false) :
    ∃ a, track_visit file ua path ts = some a ∧
      a.visits.length ≤ 1000 ∧
      (((load_analytics file).visits ++ [recorded_visit ua path ts]).length ≤ 1000 →
        a.visits = (load_analytics file).visits ++ [recorded_visit ua path ts]) ∧
      (1000 < ((load_analytics file).visits ++ [recorded_visit ua path ts]).length →
        a.visits = ((load_analytics file).visits ++ [recorded_visit ua path ts]).drop
            (((load_analytics file).visits ++ [recorded_visit ua path ts]).length - 1000) ∧
          a.visits.length = 1000) := by
  have e : track_visit file ua path ts = some
      { visits := trim_visits ((load_analytics file).visits ++ [recorded_visit ua path ts]),
        stats := bump (bump (load_analytics file).stats (detect_device_type ua)) "total" } := by
    unfold track_visit
    rw [if_neg (by simp [hpath])]
  refine ⟨_, e, trim_visits_length_le _, ?_, ?_⟩
  · intro hle
    exact trim_visits_eq_of_le _ hle
  · intro hgt
    exact trim_visits_eq_of_gt _ hgt

/-- C8 witness: a concrete recording call (fresh file, normal path). -/
theorem visits_trim_bound_witness :
    path_filtered "/equipment" = false ∧
    ∃ a, track_visit none "Mozilla/5.0" "/equipment" "2024-01-01T00:00:00" = some a ∧
      a.visits.length ≤ 1000 :=
  ⟨by decide,
   match visits_trim_bound none "Mozilla/5.0" "/equipment" "2024-01-01T00:00:00"
     (by decide) with
   | ⟨a, he, hlen, _, _⟩ => ⟨a, he, hlen⟩⟩

/-! ### Claim C9 -/

/-- C9: the `before_request` hook never propagates an exception out of visit
tracking: whatever the load/save operations do, it returns normally, logging
`Error tracking visit: <e>` exactly when the tracking body failed with `e`. -/
theorem track_visit_exception_safety
    (load_result : Except String (Option (List Visit)))
    (save_result : Except String Unit) (ua path ts : String) :
    (∀ e, before_request load_result save_result ua path ts ≠ PyOutcome.raises e) ∧
    (∀ e, track_visit_attempt load_result save_result ua path ts = Except.error e →
      before_request load_result save_result ua path ts =
        PyOutcome.returns (some ("Error tracking visit: " ++ e))) ∧
    (∀ u, track_visit_attempt load_result save_result ua path ts = Except.ok u →
      before_request load_result save_result ua path ts = PyOutcome.returns none) := by
  unfold before_request track_visit_guarded
  cases h : track_visit_attempt load_result save_result ua path ts with
  | ok u => exact ⟨fun e => by simp, fun e he => by simp at he, fun v hv => rfl⟩
  | error e =>
    exact ⟨fun x => by simp, fun x hx => by
      have : e = x := by simpa using hx
      subst this
      rfl,
      fun v hv => by simp at hv⟩

/-- C9 witness: a failing load is caught and logged; the hook still returns. -/
theorem track_visit_exception_safety_witness :
    before_request (Except.error "disk failure") (Except.ok ()) "Mozilla/5.0" "/" "t" =
      PyOutcome.returns (some ("Error tracking visit: " ++ "disk failure")) :=
  (track_visit_exception_safety (Except.error "disk failure") (Except.ok ())
    "Mozilla/5.0" "/" "t").2.1 "disk failure" rfl

end DashLLMS

namespace DashLLMS

/-! ### Claim C10 -/

theorem recompute_stats_fold_ne (vs : List Visit) (st : String → Nat)
    (k : String) (hk : k ≠ "total") :
    (vs.foldl (fun st v => bump (bump st v.deviceD) "total") st) k =
      st k + vs.countP (fun v => v.deviceD == k) := by
  induction vs generalizing st with
  | nil => simp
  | cons v t ih =>
    simp only [List.foldl_cons, List.countP_cons]
    rw [ih]
    have hb : bump (bump st v.deviceD) "total" k =
        st k + (if v.deviceD == k then 1 else 0) := by
      unfold bump
      rw [if_neg hk]
      by_cases hv : k = v.deviceD
      · subst hv
        simp
      · rw [if_neg hv]
        have : (v.deviceD == k) = false := by
          simp only [beq_eq_false_iff_ne]
          exact fun h => hv h.symm
        simp [this]
    rw [hb]
    omega

theorem recompute_stats_fold_total (vs : List Visit) (st : String → Nat) :
    (vs.foldl (fun st v => bump (bump st v.deviceD) "total") st) "total" =
      st "total" + vs.length + vs.countP (fun v => v.deviceD == "total") := by
  induction vs generalizing st with
  | nil => simp
  | cons v t ih =>
    simp only [List.foldl_cons, List.countP_cons, List.length_cons]
    rw [ih]
    have hb : bump (bump st v.deviceD) "total" "total" =
        st "total" + 1 + (if v.deviceD == "total" then 1 else 0) := by
      unfold bump
      simp only [if_pos rfl]
      by_cases hv : ("total" : String) = v.deviceD
      · rw [if_pos hv]
        have : (v.deviceD == "total") = true := by
          simp [hv.symm]
        simp [this, ← hv]
      · rw [if_neg hv]
        have : (v.deviceD == "total") = false := by
          simp only [beq_eq_false_iff_ne]
          exact fun h => hv h.symm
        simp [this]
    rw [hb]
    omega

/-- A stored visit whose `device_type` is the literal string `"total"`. -/
def total_device_visit : Visit :=
  { timestamp := "2024-01-01T00:00:00", path := some "/",
    device_type := some "total", bot_type := none, user_agent := "ua" }

/-- C10 counterexample: a stored visit whose `device_type` is the literal
string `"total"` makes `load_analytics` double-count it (`stats["total"]` is
bumped once as the device counter and once as the running total), so
`stats["total"]` is 2 while only one visit is returned. -/
theorem load_analytics_stats_cex :
    ¬ ((load_analytics (some [total_device_visit])).stats "total" =
        (load_analytics (some [total_device_visit])).visits.length) := by decide

/-- C10 (amended): `load_analytics` recomputes the stats from the filtered
visits: `stats["total"]` equals the number of returned visits plus the number
of returned visits whose `device_type` is the literal `"total"` (hence equals
the count whenever no visit carries that pathological device type); for every
other key `k`, `stats[k]` counts the returned visits whose `device_type`
(defaulting to `"desktop"` when absent) is `k`; and no returned visit's path
contains a filtered substring. -/
theorem load_analytics_stats_amended (file : Option (List Visit)) :
    ((load_analytics file).stats "total" =
      (load_analytics file).visits.length +
        (load_analytics file).visits.countP (fun v => v.deviceD == "total")) ∧
    (∀ k, k ≠ "total" →
      (load_analytics file).stats k =
        (load_analytics file).visits.countP (fun v => v.deviceD == k)) ∧
    (∀ v ∈ (load_analytics file).visits, path_filtered v.pathD = false) := by
  cases file with
  | none =>
    refine ⟨by simp [load_analytics, empty_stats], ?_, ?_⟩
    · intro k _
      simp [load_analytics, empty_stats]
    · intro v hv
      simp [load_analytics] at hv
  | some stored =>
    refine ⟨?_, ?_, ?_⟩
    · show recompute_stats _ "total" = _
      rw [recompute_stats, recompute_stats_fold_total]
      simp only [load_analytics, empty_stats]
      omega
    · intro k hk
      show recompute_stats _ k = _
      rw [recompute_stats, recompute_stats_fold_ne _ _ _ hk]
      simp only [load_analytics, empty_stats]
      omega
    · intro v hv
      have h := (List.mem_filter.mp hv).2
      simpa using h

/-- A concrete stored file: one bot visit plus one filtered asset visit. -/
def sample_visits_file : List Visit :=
  [{ timestamp := "t1", path := some "/", device_type := some "bot",
     bot_type := some "training", user_agent := "GPTBot/1.0" },
   { timestamp := "t2", path := some "/styles.css", device_type := some "desktop",
     bot_type := none, user_agent := "Mozilla" }]

/-- C10 witness: on the sample file the returned stats count the single clean
bot visit. -/
theorem load_analytics_stats_amended_witness :
    ((load_analytics (some sample_visits_file)).stats "bot" =
      (load_analytics (some sample_visits_file)).visits.countP
        (fun v => v.deviceD == "bot")) :=
  (load_analytics_stats_amended (some sample_visits_file)).2.1 "bot" (by decide)

end DashLLMS
